import Mathlib

/-!
Verification of the login-session lifecycle manager of a QR-login web relay
(`backend/api/auth.py`), against its natural-language specification.

The handlers in `auth.py` orchestrate an in-memory session registry
(`LoginState`), an external messaging client (opaque capability: wait for QR
completion, sign in with password, fetch self profile, register/unregister a
message callback) and a realtime broadcast hub (`ws_manager`).  We embed each
handler as a pure function from an environment describing the outcomes of the
external calls, plus the current registry state, to the HTTP-level result, the
new registry state, and a trace of the externally visible actions it performed,
in execution order.
-/

namespace QrLogin

/-- Login status, from the spec data model: `{pending, need_password,
authorized, failed}`.  `auth.py` writes the string values "authorized" and
"need_password"; records are created "pending". -/
inductive Status where
  | pending
  | need_password
  | authorized
  | failed
  deriving DecidableEq, Repr

/-- Event types pushed over the realtime channel by `auth.py`:
`{"type": "authorized"| "need_password", "login_id": ...}`. -/
inductive EventType where
  | authorized
  | need_password
  deriving DecidableEq, Repr

/-- A broadcast event payload `{type, login_id}`. -/
structure Event where
  type : EventType
  login_id : String
  deriving DecidableEq, Repr

/-- Modelled from the spec: the missing `backend/storage/login_state.py`
defines a `LoginRecord` holding the external client handle, the status,
the `listener_started` flag (defaults false) and an optional listener
callback handle.  Client and callback handles are opaque; we represent
them by `Nat` identifiers. -/
structure LoginRecord where
  client : Nat
  status : Status
  listener_started : Bool
  listener_handler : Option Nat
  deriving DecidableEq, Repr

/-- Modelled from the spec: the missing `backend/storage/login_state.py`
keeps an in-memory map from `login_id` to `LoginRecord`; `list()` is a
snapshot in insertion order, so we use an insertion-ordered association
list (`state.data` in `auth.py`). -/
structure LoginState where
  data : List (String × LoginRecord)
  deriving DecidableEq, Repr

/-- The empty registry (fresh process). -/
def LoginState.empty : LoginState := ⟨[]⟩

/-- First-match association-list lookup, mirroring a Python dict lookup
(keys are unique in practice: ids are generated fresh). -/
def lookupRec : List (String × LoginRecord) → String → Option LoginRecord
  | [], _ => none
  | (k, r) :: rest, id => if k = id then some r else lookupRec rest id

/-- Modelled from the spec: `get(login_id) -> LoginRecord | absent`, a pure
lookup that never blocks on external I/O. -/
def LoginState.get (st : LoginState) (id : String) : Option LoginRecord :=
  lookupRec st.data id

/-- Update every entry whose key matches (there is at most one in practice). -/
def LoginState.modify (st : LoginState) (id : String) (f : LoginRecord → LoginRecord) :
    LoginState :=
  ⟨st.data.map (fun p => if p.1 = id then (p.1, f p.2) else p)⟩

/-- Modelled from the spec: `create(login_id, client_handle)` inserts a new
record with status `pending`, `listener_started=false` (and hence no listener
handle); it fails with `DuplicateKey` (here: `none`) if the id is already
present. -/
def LoginState.create (st : LoginState) (id : String) (client : Nat) :
    Option LoginState :=
  if (st.get id).isSome then none
  else some ⟨st.data ++ [(id, ⟨client, Status.pending, false, none⟩)]⟩

/-- Modelled from the spec: `set_status(login_id, status)`: no-op if the
record is absent, otherwise overwrites the status field. -/
def LoginState.set_status (st : LoginState) (id : String) (s : Status) : LoginState :=
  st.modify id (fun r => { r with status := s })

/-- Modelled from the spec: `set_listener_started(login_id, bool)`: same
semantics as `set_status`. -/
def LoginState.set_listener_started (st : LoginState) (id : String) (b : Bool) :
    LoginState :=
  st.modify id (fun r => { r with listener_started := b })

/-- Storing / clearing the runtime listener-callback reference
(`item["listener_handler"] = handler` resp. `item.pop("listener_handler")`
in `auth.py`, mutating the shared record). -/
def LoginState.set_listener_handler (st : LoginState) (id : String) (h : Option Nat) :
    LoginState :=
  st.modify id (fun r => { r with listener_handler := h })

/-- Externally visible actions a handler can perform, recorded in execution
order: calls into the external client, broadcast calls into `ws_manager`,
and registry writes. -/
inductive Action where
  | signIn (login_id password : String)
  | setStatus (login_id : String) (s : Status)
  | broadcastCall (e : Event)
  | registerCallback (login_id : String) (handler : Nat)
  | removeCallback (handler : Nat)
  | setListenerStarted (login_id : String) (b : Bool)
  | setHandler (login_id : String) (h : Option Nat)
  deriving DecidableEq, Repr

/-- The events passed to `ws_manager.broadcast` along a trace. -/
def broadcastsOf (tr : List Action) : List Event :=
  tr.filterMap (fun a => match a with
    | Action.broadcastCall e => some e
    | _ => none)

/-- The listener-callback registrations performed along a trace. -/
def registrationsOf (tr : List Action) : List (String × Nat) :=
  tr.filterMap (fun a => match a with
    | Action.registerCallback id h => some (id, h)
    | _ => none)

/-- An HTTP error raised by a handler (`HTTPException(status_code, detail)`). -/
structure HTTPError where
  status_code : Nat
  detail : Option String
  deriving DecidableEq, Repr

/-- Outcome of `await qr.wait()` inside the background watch:
return normally, raise `SessionPasswordNeededError`, or raise anything else. -/
inductive WaitOutcome where
  | success
  | passwordNeeded
  | otherError
  deriving DecidableEq, Repr

/-- Environment of the background watch `_monitor_qr` in `auth.py`:
what the external wait does, and whether `ws_manager.broadcast` raises. -/
structure MonitorEnv where
  wait_outcome : WaitOutcome
  broadcast_raises : Bool
  deriving DecidableEq, Repr

/-- `_monitor_qr` (auth.py lines 49-68), the background watch launched by
`start_login` for a given `login_id`.  Returns the new registry state and the
trace of actions performed.

```python
try:
    await qr.wait()
    state.set_status(login_id, "authorized")
    try: await ws_manager.broadcast({"type": "authorized", "login_id": login_id})
    except Exception as e: log.debug(...)
except SessionPasswordNeededError:
    state.set_status(login_id, "need_password")
    try: await ws_manager.broadcast({"type": "need_password", "login_id": login_id})
    except Exception as e: log.debug(...)
except Exception as e:
    log.debug(...)
```
-/
def monitor_qr (env : MonitorEnv) (st : LoginState) (login_id : String) :
    LoginState × List Action :=
  match env.wait_outcome with
  | WaitOutcome.success =>
      let st1 := st.set_status login_id Status.authorized
      let ev : Event := ⟨EventType.authorized, login_id⟩
      let tr := [Action.setStatus login_id Status.authorized, Action.broadcastCall ev]
      -- try/except around the broadcast: the except arm only logs, so both
      -- arms of the embedded conditional continue identically.
      if env.broadcast_raises then (st1, tr) else (st1, tr)
  | WaitOutcome.passwordNeeded =>
      let st1 := st.set_status login_id Status.need_password
      let ev : Event := ⟨EventType.need_password, login_id⟩
      let tr := [Action.setStatus login_id Status.need_password, Action.broadcastCall ev]
      if env.broadcast_raises then (st1, tr) else (st1, tr)
  | WaitOutcome.otherError =>
      -- unrecognized failure: log.debug only, no registry write, no broadcast
      (st, [])

/-- Environment of `send_password`: whether `client.sign_in(password=...)`
succeeds, and whether `ws_manager.broadcast` raises on the success path. -/
structure PasswordEnv where
  sign_in_ok : Bool
  broadcast_raises : Bool
  deriving DecidableEq, Repr

/-- `send_password` (auth.py lines 120-144), the `POST password` handler.

```python
item = await state.get(data.login_id)
if not item:
    raise HTTPException(status_code=404)
client = item.get("client")
try:
    await client.sign_in(password=data.password)
    state.set_status(data.login_id, "authorized")
    try: await ws_manager.broadcast({"type": "authorized", "login_id": data.login_id})
    except Exception as e: log.debug(...)
    return {"status": "ok"}
except Exception as e:
    raise HTTPException(status_code=400, detail="Invalid password")
```
The outer `except` can only be reached by a `sign_in` failure: `set_status`
never raises and the inner `try` swallows broadcast errors. -/
def send_password (env : PasswordEnv) (st : LoginState) (login_id password : String) :
    Except HTTPError String × LoginState × List Action :=
  match st.get login_id with
  | none => (Except.error ⟨404, none⟩, st, [])
  | some _item =>
      if env.sign_in_ok then
        let st1 := st.set_status login_id Status.authorized
        let ev : Event := ⟨EventType.authorized, login_id⟩
        let tr := [Action.signIn login_id password,
                   Action.setStatus login_id Status.authorized,
                   Action.broadcastCall ev]
        -- inner try/except around the broadcast: the except arm only logs
        if env.broadcast_raises then (Except.ok "ok", st1, tr)
        else (Except.ok "ok", st1, tr)
      else
        (Except.error ⟨400, some "Invalid password"⟩, st,
         [Action.signIn login_id password])

/-- `check_status` (auth.py lines 87-112), the `GET status/{login_id}`
handler: logging-only, returns 204 No Content on both branches, performs no
registry write and no client operation.

```python
try: item = await state.get(login_id)
except Exception: item = None
if not item:
    return Response(status_code=204)
return Response(status_code=204)
```
-/
def check_status (st : LoginState) (login_id : String) :
    Nat × LoginState × List Action :=
  match st.get login_id with
  | none => (204, st, [])
  | some _item => (204, st, [])

/-- Outcome of `await client.get_me()` for one login during `list_logins`:
raise, return `None`, or return a profile object carrying the
`username` / `first_name` attributes (either may be `None`). -/
inductive GetMeOutcome where
  | raises
  | noUser
  | user (username : Option String) (first_name : Option String)
  deriving DecidableEq, Repr

/-- Python `x or y` on optional strings: `None` and `""` are falsy, so the
left value is kept only when it is a non-empty string
(`getattr(me, "username", None) or getattr(me, "first_name", None)`). -/
def pyOr (a b : Option String) : Option String :=
  match a with
  | some s => if s = "" then b else some s
  | none => b

/-- The `username` value `list_logins` computes for one record, given the
outcome of the `get_me` call; every failure is caught and yields `None`. -/
def resolveUsername (o : GetMeOutcome) : Option String :=
  match o with
  | GetMeOutcome.raises => none
  | GetMeOutcome.noUser => none
  | GetMeOutcome.user u f => pyOr u f

/-- One element of the `GET logins` response:
`{"login_id": ..., **base, "username": ...}` where `base` carries the
record's serializable fields (`status`, `listener_started`). -/
structure LoginEntry where
  login_id : String
  status : Status
  listener_started : Bool
  username : Option String
  deriving DecidableEq, Repr

/-- `list_logins` (auth.py lines 153-186), the `GET logins` handler.

```python
out = []
for login_id in list(state.data.keys()):
    base = dict(state.data.get(login_id, {}))
    username = None
    try:
        item = await state.get(login_id)
        if item:
            client = item.get("client")
            if client:
                try:
                    me = await client.get_me()
                    if me:
                        username = getattr(me, "username", None) or getattr(me, "first_name", None)
                except Exception:
                    username = None
    except Exception:
        username = None
    entry = {"login_id": login_id, **base}
    entry["username"] = username
    out.append(entry)
return out
```
The loop body never raises: both external-failure sites are wrapped in
`try/except` that resets `username` to `None`, so the handler is total.  The
client handle stored at creation is an object reference (always truthy), so
the `if client:` guard always passes for registry records. -/
def list_logins (env : String → GetMeOutcome) (st : LoginState) : List LoginEntry :=
  st.data.map (fun p =>
    ⟨p.1, p.2.status, p.2.listener_started, resolveUsername (env p.1)⟩)

/-- Environment of `start_listen`: whether
`setup_message_listener(client, ws_manager, login_id)` raises, and the
handler reference it returns when it does not. -/
structure ListenEnv where
  attach_fails : Bool
  new_handler : Nat
  deriving DecidableEq, Repr

/-- `start_listen` (auth.py lines 198-224), the `POST listen` handler.

```python
item = await state.get(data.login_id)
if not item:
    raise HTTPException(status_code=404)
client = item.get("client")
if item.get("listener_started"):
    return {"status": "already_listening"}
try:
    handler = setup_message_listener(client, ws_manager, data.login_id)
except Exception as e:
    raise HTTPException(status_code=500, detail="Failed to start listener")
state.set_listener_started(data.login_id, True)
item["listener_handler"] = handler
return {"status": "ok"}
```
A `registerCallback` action is recorded when `setup_message_listener`
returns a handler (a callback was registered). -/
def start_listen (env : ListenEnv) (st : LoginState) (login_id : String) :
    Except HTTPError String × LoginState × List Action :=
  match st.get login_id with
  | none => (Except.error ⟨404, none⟩, st, [])
  | some item =>
      if item.listener_started then
        (Except.ok "already_listening", st, [])
      else if env.attach_fails then
        (Except.error ⟨500, some "Failed to start listener"⟩, st, [])
      else
        let st1 := st.set_listener_started login_id true
        let st2 := st1.set_listener_handler login_id (some env.new_handler)
        (Except.ok "ok", st2,
         [Action.registerCallback login_id env.new_handler,
          Action.setListenerStarted login_id true,
          Action.setHandler login_id (some env.new_handler)])

/-- Environment of `stop_listen`: whether
`client.remove_event_handler(handler)` raises. -/
structure UnlistenEnv where
  remove_fails : Bool
  deriving DecidableEq, Repr

/-- `stop_listen` (auth.py lines 231-254), the `POST unlisten` handler.

```python
item = await state.get(data.login_id)
if not item:
    raise HTTPException(status_code=404)
client = item.get("client")
handler = item.get("listener_handler")
if not handler:
    return {"status": "not_listening"}
try:
    client.remove_event_handler(handler)
except Exception as e:
    raise HTTPException(status_code=500, detail="Failed to stop listener")
item.pop("listener_handler", None)
state.set_listener_started(data.login_id, False)
return {"status": "ok"}
```
A `removeCallback` action is recorded when the unregistration succeeds. -/
def stop_listen (env : UnlistenEnv) (st : LoginState) (login_id : String) :
    Except HTTPError String × LoginState × List Action :=
  match st.get login_id with
  | none => (Except.error ⟨404, none⟩, st, [])
  | some item =>
      match item.listener_handler with
      | none => (Except.ok "not_listening", st, [])
      | some h =>
          if env.remove_fails then
            (Except.error ⟨500, some "Failed to stop listener"⟩, st, [])
          else
            let st1 := st.set_listener_handler login_id none
            let st2 := st1.set_listener_started login_id false
            (Except.ok "ok", st2,
             [Action.removeCallback h,
              Action.setHandler login_id none,
              Action.setListenerStarted login_id false])

/-- One invocation of any state-touching operation of the system, with the
outcomes of its external calls: record creation by `start_login`, the
background watch, the password handler, the status endpoint, listener
attach/detach, and the listing endpoint. -/
inductive Op where
  | createLogin (id : String) (client : Nat)
  | runMonitor (env : MonitorEnv) (id : String)
  | runPassword (env : PasswordEnv) (id pw : String)
  | runStatus (id : String)
  | runListen (env : ListenEnv) (id : String)
  | runUnlisten (env : UnlistenEnv) (id : String)
  | runList (env : String → GetMeOutcome)

/-- The registry state after one operation (a failed `create` on a duplicate
id leaves the registry unchanged; `list_logins` reads only). -/
def applyOp (op : Op) (st : LoginState) : LoginState :=
  match op with
  | Op.createLogin id c => (st.create id c).getD st
  | Op.runMonitor env id => (monitor_qr env st id).1
  | Op.runPassword env id pw => (send_password env st id pw).2.1
  | Op.runStatus id => (check_status st id).2.1
  | Op.runListen env id => (start_listen env st id).2.1
  | Op.runUnlisten env id => (stop_listen env st id).2.1
  | Op.runList _env => st

/-- Registry state reached from the empty registry by a sequence of
operations. -/
def runOps (ops : List Op) : LoginState :=
  ops.foldl (fun st op => applyOp op st) LoginState.empty

/-- The flag/handle agreement from the spec: `listener_handle` is present
if and only if `listener_started` is true. -/
def LoginRecord.listenerConsistent (r : LoginRecord) : Prop :=
  r.listener_handler.isSome = r.listener_started

/-- Every record in the registry has its listener flag and handle agreeing. -/
def LoginState.listenerInv (st : LoginState) : Prop :=
  ∀ p ∈ st.data, LoginRecord.listenerConsistent p.2

/-- A `setStatus` registry write for `login_id` occurs in the trace strictly
before a broadcast call carrying event `e`. -/
def statusWriteBeforeBroadcast (tr : List Action) (login_id : String) (s : Status)
    (e : Event) : Prop :=
  ∃ i j : Nat, i < j ∧ tr[i]? = some (Action.setStatus login_id s)
    ∧ tr[j]? = some (Action.broadcastCall e)

/-- Concrete registry: one login awaiting its 2FA password. -/
def stPwd : LoginState := ⟨[("a", ⟨1, Status.need_password, false, none⟩)]⟩

/-- Concrete registry: one authorized login with an active listener. -/
def stListening : LoginState := ⟨[("a", ⟨1, Status.authorized, true, some 7⟩)]⟩

/-! ### Registry lemmas -/

theorem lookupRec_cons (k : String) (r : LoginRecord) (rest : List (String × LoginRecord))
    (id : String) :
    lookupRec ((k, r) :: rest) id = if k = id then some r else lookupRec rest id := rfl

theorem lookupRec_map_modify (l : List (String × LoginRecord)) (id : String)
    (f : LoginRecord → LoginRecord) :
    lookupRec (l.map (fun p => if p.1 = id then (p.1, f p.2) else p)) id
      = (lookupRec l id).map f := by
  induction l with
  | nil => rfl
  | cons a rest ih =>
      obtain ⟨k, r⟩ := a
      rw [List.map_cons]
      by_cases hb : k = id
      · rw [if_pos hb, lookupRec_cons, lookupRec_cons, if_pos hb, if_pos hb]
        rfl
      · rw [if_neg hb, lookupRec_cons, lookupRec_cons, if_neg hb, if_neg hb]
        exact ih

/-- `modify` through the lens of `get` at the modified key. -/
theorem get_modify_self (st : LoginState) (id : String) (f : LoginRecord → LoginRecord) :
    (st.modify id f).get id = (st.get id).map f := by
  cases st with
  | mk data => simpa [LoginState.modify, LoginState.get] using lookupRec_map_modify data id f

/-- Two `modify` calls at the same key compose. -/
theorem modify_modify (st : LoginState) (id : String) (f g : LoginRecord → LoginRecord) :
    (st.modify id f).modify id g = st.modify id (fun r => g (f r)) := by
  cases st with
  | mk data =>
      simp only [LoginState.modify, List.map_map, LoginState.mk.injEq]
      apply List.map_congr_left
      intro p _
      by_cases hb : p.1 = id
      · simp [Function.comp, hb]
      · simp [Function.comp, hb]

/-- `modify` with a function whose output is always flag/handle-consistent
preserves the registry invariant. -/
theorem listenerInv_modify (st : LoginState) (id : String) (f : LoginRecord → LoginRecord)
    (hinv : st.listenerInv)
    (hf : ∀ r, LoginRecord.listenerConsistent r → LoginRecord.listenerConsistent (f r)) :
    (st.modify id f).listenerInv := by
  intro p hp
  cases st with
  | mk data =>
      simp only [LoginState.modify] at hp
      obtain ⟨q, hq, rfl⟩ := List.mem_map.mp hp
      by_cases hb : q.1 = id
      · simpa [hb] using hf q.2 (hinv q hq)
      · simpa [hb] using hinv q hq

/-- `set_status` touches neither listener field, so it preserves the
invariant. -/
theorem listenerInv_set_status (st : LoginState) (id : String) (s : Status)
    (hinv : st.listenerInv) : (st.set_status id s).listenerInv := by
  refine listenerInv_modify st id _ hinv ?_
  intro r hr
  simpa [LoginRecord.listenerConsistent] using hr

theorem get_set_status_self (st : LoginState) (id : String) (s : Status) :
    (st.set_status id s).get id = (st.get id).map (fun r => { r with status := s }) :=
  get_modify_self st id _

theorem get_listen_updates_self (st : LoginState) (id : String) (h : Nat) :
    ((st.set_listener_started id true).set_listener_handler id (some h)).get id
      = (st.get id).map
          (fun r => { r with listener_started := true, listener_handler := some h }) := by
  rw [LoginState.set_listener_started, LoginState.set_listener_handler, modify_modify]
  exact get_modify_self st id _

/-! ### Claim theorems -/

/-- C3: if the background watch's await of the external completion capability
fails with anything other than the password-needed signal, the watch
terminates without mutating the registry and without broadcasting (or
performing) anything: the record keeps its prior status. -/
theorem monitor_qr_other_error_frame (env : MonitorEnv) (st : LoginState)
    (login_id : String) (h : env.wait_outcome = WaitOutcome.otherError) :
    monitor_qr env st login_id = (st, []) := by
  obtain ⟨w, b⟩ := env
  cases h
  rfl

/-- Witness for C3 at a concrete environment and registry. -/
theorem monitor_qr_other_error_frame_witness :
    (MonitorEnv.mk WaitOutcome.otherError true).wait_outcome = WaitOutcome.otherError ∧
    monitor_qr ⟨WaitOutcome.otherError, true⟩ stPwd "a" = (stPwd, []) :=
  ⟨rfl, monitor_qr_other_error_frame ⟨WaitOutcome.otherError, true⟩ stPwd "a" rfl⟩

/-- C5: `GET status/{login_id}` is observability-only for every login id,
known or unknown: it returns 204 No Content, leaves the registry exactly as
it was, and performs no external action (no client call, no registration,
no broadcast, no registry write). -/
theorem check_status_observability_only (st : LoginState) (login_id : String) :
    check_status st login_id = (204, st, []) := by
  unfold check_status
  cases st.get login_id <;> rfl

/-- C9: `submit_password` on an unknown login id fails with a 404 and
performs nothing: the registry is unchanged and the trace is empty, so there
is no broadcast, no status write and no external sign-in call. -/
theorem send_password_unknown_id (env : PasswordEnv) (st : LoginState)
    (login_id password : String) (h : st.get login_id = none) :
    send_password env st login_id password = (Except.error ⟨404, none⟩, st, []) := by
  unfold send_password
  rw [h]

/-- Witness for C9: the empty registry knows no login id. -/
theorem send_password_unknown_id_witness :
    LoginState.empty.get "a" = none ∧
    send_password ⟨true, false⟩ LoginState.empty "a" "pw"
      = (Except.error ⟨404, none⟩, LoginState.empty, []) :=
  ⟨rfl, send_password_unknown_id ⟨true, false⟩ LoginState.empty "a" "pw" rfl⟩

/-- C1: for every known login id, `submit_password` returns success exactly
when the external sign-in-with-password call succeeds.  On success the
record's status becomes `authorized`, exactly one `{authorized, login_id}`
event is passed to `broadcast`, and `{status: "ok"}` is returned; on any
sign-in failure the handler fails with a 400 "Invalid password", the
registry is left unchanged (the record keeps its prior status, e.g.
`need_password`), and nothing is broadcast. -/
theorem send_password_known_id (env : PasswordEnv) (st : LoginState)
    (login_id password : String) (item : LoginRecord)
    (h : st.get login_id = some item) :
    ((send_password env st login_id password).1 = Except.ok "ok"
        ↔ env.sign_in_ok = true) ∧
    (env.sign_in_ok = true →
       (send_password env st login_id password).1 = Except.ok "ok" ∧
       (send_password env st login_id password).2.1.get login_id
         = some { item with status := Status.authorized } ∧
       broadcastsOf (send_password env st login_id password).2.2
         = [⟨EventType.authorized, login_id⟩]) ∧
    (env.sign_in_ok = false →
       (send_password env st login_id password).1
         = Except.error ⟨400, some "Invalid password"⟩ ∧
       (send_password env st login_id password).2.1 = st ∧
       broadcastsOf (send_password env st login_id password).2.2 = []) := by
  cases hs : env.sign_in_ok with
  | true =>
      have hget : (st.set_status login_id Status.authorized).get login_id
          = some { item with status := Status.authorized } := by
        rw [get_set_status_self, h]
        rfl
      cases hb : env.broadcast_raises <;>
        simp [send_password, h, hs, hb, broadcastsOf, hget]
  | false =>
      simp [send_password, h, hs, broadcastsOf]

/-- Witness for C1 at a concrete registry awaiting its password. -/
theorem send_password_known_id_witness :
    stPwd.get "a" = some ⟨1, Status.need_password, false, none⟩ ∧
    (send_password ⟨true, false⟩ stPwd "a" "pw").1 = Except.ok "ok" ∧
    (send_password ⟨true, false⟩ stPwd "a" "pw").2.1.get "a"
      = some ⟨1, Status.authorized, false, none⟩ ∧
    broadcastsOf (send_password ⟨true, false⟩ stPwd "a" "pw").2.2
      = [⟨EventType.authorized, "a"⟩] :=
  ⟨rfl, (send_password_known_id ⟨true, false⟩ stPwd "a" "pw" _ rfl).2.1 rfl⟩

/-- C2: the background watch, when the external wait returns plainly, sets
the login's status to `authorized` and passes exactly one
`{authorized, login_id}` event to `broadcast`; when the wait raises the
distinguished password-needed signal, it sets status `need_password` and
passes exactly one `{need_password, login_id}` event. -/
theorem monitor_qr_success_outcomes (b : Bool) (st : LoginState) (login_id : String)
    (item : LoginRecord) (h : st.get login_id = some item) :
    ((monitor_qr ⟨WaitOutcome.success, b⟩ st login_id).1.get login_id
        = some { item with status := Status.authorized } ∧
     broadcastsOf (monitor_qr ⟨WaitOutcome.success, b⟩ st login_id).2
        = [⟨EventType.authorized, login_id⟩]) ∧
    ((monitor_qr ⟨WaitOutcome.passwordNeeded, b⟩ st login_id).1.get login_id
        = some { item with status := Status.need_password } ∧
     broadcastsOf (monitor_qr ⟨WaitOutcome.passwordNeeded, b⟩ st login_id).2
        = [⟨EventType.need_password, login_id⟩]) := by
  have hget1 : (st.set_status login_id Status.authorized).get login_id
      = some { item with status := Status.authorized } := by
    rw [get_set_status_self, h]; rfl
  have hget2 : (st.set_status login_id Status.need_password).get login_id
      = some { item with status := Status.need_password } := by
    rw [get_set_status_self, h]; rfl
  cases b <;> simp [monitor_qr, broadcastsOf, hget1, hget2]

/-- Witness for C2 at a concrete one-record registry. -/
theorem monitor_qr_success_outcomes_witness :
    stPwd.get "a" = some ⟨1, Status.need_password, false, none⟩ ∧
    (monitor_qr ⟨WaitOutcome.success, false⟩ stPwd "a").1.get "a"
      = some ⟨1, Status.authorized, false, none⟩ ∧
    broadcastsOf (monitor_qr ⟨WaitOutcome.success, false⟩ stPwd "a").2
      = [⟨EventType.authorized, "a"⟩] :=
  ⟨rfl, (monitor_qr_success_outcomes false stPwd "a" _ rfl).1⟩

/-- C10: in both the background watch and `submit_password`, the registry
status write occurs in the trace strictly before the corresponding broadcast
call, and the broadcast's own failure is swallowed at the call site: the
state reached and the value returned are the same whether `broadcast`
raises or not, so a failing broadcast never undoes or prevents the status
change, and `submit_password` still returns `{status: "ok"}` when
broadcasting the authorized event raises. -/
theorem status_write_precedes_broadcast (b : Bool) (st : LoginState)
    (login_id password : String) (item : LoginRecord)
    (h : st.get login_id = some item) :
    (monitor_qr ⟨WaitOutcome.success, b⟩ st login_id
        = monitor_qr ⟨WaitOutcome.success, false⟩ st login_id) ∧
    ((monitor_qr ⟨WaitOutcome.success, b⟩ st login_id).1
        = st.set_status login_id Status.authorized) ∧
    statusWriteBeforeBroadcast (monitor_qr ⟨WaitOutcome.success, b⟩ st login_id).2
        login_id Status.authorized ⟨EventType.authorized, login_id⟩ ∧
    (monitor_qr ⟨WaitOutcome.passwordNeeded, b⟩ st login_id
        = monitor_qr ⟨WaitOutcome.passwordNeeded, false⟩ st login_id) ∧
    ((monitor_qr ⟨WaitOutcome.passwordNeeded, b⟩ st login_id).1
        = st.set_status login_id Status.need_password) ∧
    statusWriteBeforeBroadcast (monitor_qr ⟨WaitOutcome.passwordNeeded, b⟩ st login_id).2
        login_id Status.need_password ⟨EventType.need_password, login_id⟩ ∧
    (send_password ⟨true, b⟩ st login_id password
        = send_password ⟨true, false⟩ st login_id password) ∧
    ((send_password ⟨true, b⟩ st login_id password).1 = Except.ok "ok") ∧
    ((send_password ⟨true, b⟩ st login_id password).2.1
        = st.set_status login_id Status.authorized) ∧
    statusWriteBeforeBroadcast (send_password ⟨true, b⟩ st login_id password).2.2
        login_id Status.authorized ⟨EventType.authorized, login_id⟩ := by
  cases b <;>
    refine ⟨rfl, rfl, ⟨0, 1, by decide, by simp [monitor_qr], by simp [monitor_qr]⟩,
            rfl, rfl, ⟨0, 1, by decide, by simp [monitor_qr], by simp [monitor_qr]⟩,
            ?_, ?_, ?_, ⟨1, 2, by decide, ?_, ?_⟩⟩ <;>
    simp [send_password, h, statusWriteBeforeBroadcast]

/-- Witness for C10 at a concrete registry with a raising broadcast hub. -/
theorem status_write_precedes_broadcast_witness :
    stPwd.get "a" = some ⟨1, Status.need_password, false, none⟩ ∧
    (send_password ⟨true, true⟩ stPwd "a" "pw").1 = Except.ok "ok" :=
  ⟨rfl, (status_write_precedes_broadcast true stPwd "a" "pw" _ rfl).2.2.2.2.2.2.2.1⟩

/-- C4: `list_logins` never fails as a whole, whatever the `get_me`
outcomes: it returns one summary per stored record, each carrying that
record's id, status and listener flag; when the best-effort profile
resolution for a record raises, the summary's username is simply absent,
and a username is present only when resolution succeeded (the call
returned a profile object). -/
theorem list_logins_total_best_effort (env : String → GetMeOutcome) (st : LoginState) :
    (list_logins env st).length = st.data.length ∧
    (∀ (i : Nat) (id : String) (r : LoginRecord), st.data[i]? = some (id, r) →
      ∃ e : LoginEntry, (list_logins env st)[i]? = some e ∧
        e.login_id = id ∧ e.status = r.status ∧
        e.listener_started = r.listener_started ∧
        (env id = GetMeOutcome.raises → e.username = none) ∧
        (e.username.isSome = true →
           ∃ u f, env id = GetMeOutcome.user u f ∧ e.username = pyOr u f)) := by
  constructor
  · simp [list_logins]
  · intro i id r hir
    refine ⟨⟨id, r.status, r.listener_started, resolveUsername (env id)⟩, ?_, rfl, rfl, rfl,
            ?_, ?_⟩
    · rw [list_logins, List.getElem?_map, hir]
      rfl
    · intro hr
      rw [hr]
      rfl
    · intro hsome
      cases ho : env id with
      | raises => rw [ho] at hsome; simp [resolveUsername] at hsome
      | noUser => rw [ho] at hsome; simp [resolveUsername] at hsome
      | user u f => exact ⟨u, f, rfl, rfl⟩

/-- Witness for C4: a one-record registry whose profile resolution raises
still yields a full listing with the username absent. -/
theorem list_logins_total_best_effort_witness :
    (stListening.data[0]? = some ("a", ⟨1, Status.authorized, true, some 7⟩)) ∧
    (∃ e : LoginEntry,
      (list_logins (fun _ => GetMeOutcome.raises) stListening)[0]? = some e ∧
      e.login_id = "a" ∧ e.status = Status.authorized ∧
      e.listener_started = true ∧
      ((fun _ : String => GetMeOutcome.raises) "a" = GetMeOutcome.raises → e.username = none) ∧
      (e.username.isSome = true →
         ∃ u f, (fun _ : String => GetMeOutcome.raises) "a" = GetMeOutcome.user u f ∧
           e.username = pyOr u f)) :=
  ⟨rfl, (list_logins_total_best_effort (fun _ => GetMeOutcome.raises) stListening).2
          0 "a" ⟨1, Status.authorized, true, some 7⟩ rfl⟩

/-- C6: `POST listen` is idempotent on a login whose listener is already
running: it returns `already_listening` with no side effect (registry
unchanged, empty trace, so no callback registered); consequently two
consecutive attach calls on the same id — the first one succeeding —
register exactly one callback, and the second leaves the registry as the
first left it. -/
theorem start_listen_idempotent (env1 env2 : ListenEnv) (st : LoginState)
    (login_id : String) (item : LoginRecord) (h : st.get login_id = some item) :
    (item.listener_started = true →
       start_listen env1 st login_id = (Except.ok "already_listening", st, [])) ∧
    (item.listener_started = false → env1.attach_fails = false →
       (start_listen env2 (start_listen env1 st login_id).2.1 login_id).1
           = Except.ok "already_listening" ∧
       (start_listen env2 (start_listen env1 st login_id).2.1 login_id).2.1
           = (start_listen env1 st login_id).2.1 ∧
       registrationsOf ((start_listen env1 st login_id).2.2
           ++ (start_listen env2 (start_listen env1 st login_id).2.1 login_id).2.2)
           = [(login_id, env1.new_handler)]) := by
  constructor
  · intro hs
    simp [start_listen, h, hs]
  · intro hs ha
    have hst1 : (start_listen env1 st login_id).2.1
        = (st.set_listener_started login_id true).set_listener_handler login_id
            (some env1.new_handler) := by
      simp [start_listen, h, hs, ha]
    have htr1 : (start_listen env1 st login_id).2.2
        = [Action.registerCallback login_id env1.new_handler,
           Action.setListenerStarted login_id true,
           Action.setHandler login_id (some env1.new_handler)] := by
      simp [start_listen, h, hs, ha]
    have hget : ((st.set_listener_started login_id true).set_listener_handler login_id
          (some env1.new_handler)).get login_id
        = some { item with listener_started := true,
                           listener_handler := some env1.new_handler } := by
      rw [get_listen_updates_self, h]
      rfl
    rw [hst1, htr1]
    refine ⟨?_, ?_, ?_⟩ <;> simp [start_listen, hget, registrationsOf]

/-- Witness for C6: a successful attach followed by a second attach on the
same id registers exactly one callback. -/
theorem start_listen_idempotent_witness :
    stPwd.get "a" = some ⟨1, Status.need_password, false, none⟩ ∧
    (start_listen ⟨false, 9⟩ (start_listen ⟨false, 5⟩ stPwd "a").2.1 "a").1
        = Except.ok "already_listening" ∧
    (start_listen ⟨false, 9⟩ (start_listen ⟨false, 5⟩ stPwd "a").2.1 "a").2.1
        = (start_listen ⟨false, 5⟩ stPwd "a").2.1 ∧
    registrationsOf ((start_listen ⟨false, 5⟩ stPwd "a").2.2
        ++ (start_listen ⟨false, 9⟩ (start_listen ⟨false, 5⟩ stPwd "a").2.1 "a").2.2)
        = [("a", 5)] :=
  ⟨rfl, (start_listen_idempotent ⟨false, 5⟩ ⟨false, 9⟩ stPwd "a" _ rfl).2 rfl rfl⟩

/-- C7: `POST unlisten` on a known login mutates nothing except on
successful unregistration: with no stored callback it returns
`not_listening` with registry unchanged and empty trace; when removing the
stored callback raises, it fails with a 500 "Failed to stop listener" and
the registry is unchanged, so the callback handle is retained and
`listener_started` stays true. -/
theorem stop_listen_frame (env : UnlistenEnv) (st : LoginState) (login_id : String)
    (item : LoginRecord) (h : st.get login_id = some item) :
    (item.listener_handler = none →
       stop_listen env st login_id = (Except.ok "not_listening", st, [])) ∧
    (∀ hd : Nat, item.listener_handler = some hd → env.remove_fails = true →
       stop_listen env st login_id
         = (Except.error ⟨500, some "Failed to stop listener"⟩, st, [])) := by
  constructor
  · intro hh
    simp [stop_listen, h, hh]
  · intro hd hh hr
    simp [stop_listen, h, hh, hr]

/-- Witness for C7: removal failure on a listening record leaves the
registry untouched. -/
theorem stop_listen_frame_witness :
    stListening.get "a" = some ⟨1, Status.authorized, true, some 7⟩ ∧
    (LoginRecord.mk 1 Status.authorized true (some 7)).listener_handler = some 7 ∧
    stop_listen ⟨true⟩ stListening "a"
      = (Except.error ⟨500, some "Failed to stop listener"⟩, stListening, []) :=
  ⟨rfl, rfl, (stop_listen_frame ⟨true⟩ stListening "a" _ rfl).2 7 rfl rfl⟩

/-- Every single operation preserves the flag/handle agreement. -/
theorem listenerInv_applyOp (op : Op) (st : LoginState) (hinv : st.listenerInv) :
    (applyOp op st).listenerInv := by
  cases op with
  | createLogin id c =>
      by_cases hdup : (st.get id).isSome
      · simpa [applyOp, LoginState.create, hdup] using hinv
      · intro p hp
        simp only [applyOp, LoginState.create, hdup, if_neg, Bool.false_eq_true,
          not_false_eq_true, if_false, Option.getD_some] at hp
        rcases List.mem_append.mp hp with hold | hnew
        · exact hinv p hold
        · rw [List.mem_singleton.mp hnew]
          rfl
  | runMonitor env id =>
      obtain ⟨w, b⟩ := env
      cases w with
      | success =>
          cases b <;> simpa [applyOp, monitor_qr] using listenerInv_set_status st id _ hinv
      | passwordNeeded =>
          cases b <;> simpa [applyOp, monitor_qr] using listenerInv_set_status st id _ hinv
      | otherError => simpa [applyOp, monitor_qr] using hinv
  | runPassword env id pw =>
      obtain ⟨ok, b⟩ := env
      cases hget : st.get id with
      | none => simpa [applyOp, send_password, hget] using hinv
      | some item =>
          cases ok with
          | true =>
              cases b <;>
                simpa [applyOp, send_password, hget] using listenerInv_set_status st id _ hinv
          | false => simpa [applyOp, send_password, hget] using hinv
  | runStatus id =>
      cases hget : st.get id <;> simpa [applyOp, check_status, hget] using hinv
  | runListen env id =>
      cases hget : st.get id with
      | none => simpa [applyOp, start_listen, hget] using hinv
      | some item =>
          by_cases hs : item.listener_started
          · simpa [applyOp, start_listen, hget, hs] using hinv
          · by_cases ha : env.attach_fails
            · simpa [applyOp, start_listen, hget, hs, ha] using hinv
            · simp only [applyOp, start_listen, hget, hs, ha, Bool.false_eq_true, if_false]
              rw [LoginState.set_listener_started, LoginState.set_listener_handler,
                modify_modify]
              exact listenerInv_modify st id _ hinv (fun r _ => rfl)
  | runUnlisten env id =>
      cases hget : st.get id with
      | none => simpa [applyOp, stop_listen, hget] using hinv
      | some item =>
          cases hh : item.listener_handler with
          | none => simpa [applyOp, stop_listen, hget, hh] using hinv
          | some hd =>
              by_cases hr : env.remove_fails
              · simpa [applyOp, stop_listen, hget, hh, hr] using hinv
              · simp only [applyOp, stop_listen, hget, hh, hr, Bool.false_eq_true, if_false]
                rw [LoginState.set_listener_handler, LoginState.set_listener_started,
                  modify_modify]
                exact listenerInv_modify st id _ hinv (fun r _ => rfl)
  | runList env => simpa [applyOp] using hinv

/-- The invariant holds in every state reachable from the empty registry. -/
theorem listenerInv_runOps (ops : List Op) : (runOps ops).listenerInv := by
  suffices h : ∀ st : LoginState, st.listenerInv →
      (ops.foldl (fun s op => applyOp op s) st).listenerInv by
    refine h LoginState.empty ?_
    intro p hp
    simp [LoginState.empty] at hp
  induction ops with
  | nil => intro st hinv; exact hinv
  | cons op rest ih => intro st hinv; exact ih _ (listenerInv_applyOp op st hinv)

/-- C8: in every registry state reachable from the fresh process by any
sequence of operations — record creation, background watches, password
submissions, status checks, listener attach/detach, listings — every record
stores a listener handle exactly when its `listener_started` flag is true:
records are created with neither, attach sets both together, detach clears
both together, and no operation leaves them disagreeing. -/
theorem listener_flag_iff_handle (ops : List Op) (p : String × LoginRecord)
    (hp : p ∈ (runOps ops).data) :
    p.2.listener_handler.isSome = p.2.listener_started :=
  listenerInv_runOps ops p hp

/-- Witness for C8: a freshly created record (flag false, no handle)
reached by one `create` operation. -/
theorem listener_flag_iff_handle_witness :
    ("a", LoginRecord.mk 1 Status.pending false none) ∈ (runOps [Op.createLogin "a" 1]).data ∧
    (LoginRecord.mk 1 Status.pending false none).listener_handler.isSome
      = (LoginRecord.mk 1 Status.pending false none).listener_started :=
  ⟨by decide,
   listener_flag_iff_handle [Op.createLogin "a" 1]
     ("a", LoginRecord.mk 1 Status.pending false none) (by decide)⟩

end QrLogin
